import Mathlib

/-!
Verification of the travel-assistant backend's token cache, provider client,
lookup resolution and response formatting, as a shallow embedding of
`src/services/amadeus_service.py`, `src/services/hotel_service.py` and
`src/agents/hotel_agent.py`.

Python `Optional[str]` values are `Option String`; Python truthiness of a
string (`if not s`) is the `truthyStr` test below; machine time is `Int`
seconds as returned by `int(time.time())`.
-/

/-- Python truthiness of an `Optional[str]`: `None` and `""` are falsy. -/
def truthyStr : Option String → Bool
  | none => false
  | some s => s != ""

/-- Python `str(b).lower()` for a `bool` argument. -/
def pyBoolStr (b : Bool) : String := if b then "true" else "false"

/-- ASCII lowering of one character, as Python `str.lower` acts on ASCII input. -/
def charLower (c : Char) : Char :=
  if 65 ≤ c.toNat ∧ c.toNat ≤ 90 then Char.ofNat (c.toNat + 32) else c

/-- ASCII raising of one character, as Python `str.upper` acts on ASCII input. -/
def charUpper (c : Char) : Char :=
  if 97 ≤ c.toNat ∧ c.toNat ≤ 122 then Char.ofNat (c.toNat - 32) else c

/-- Python `s.lower()` (restricted to the ASCII range the city tables use). -/
def pyLower (s : String) : String := String.mk (s.data.map charLower)

/-- Python `s.upper()` (restricted to the ASCII range the city tables use). -/
def pyUpper (s : String) : String := String.mk (s.data.map charUpper)

/-- Python `s.replace(" ", "")`: remove every space character. -/
def removeSpaces (s : String) : String := String.mk (s.data.filter (fun c => c != ' '))

/-! ## Token cache (`AmadeusService._ensure_token` / `HotelService._ensure_token`)

The two service classes carry identical token-cache code (amadeus_service.py
lines 39-78, hotel_service.py lines 37-76); `ensure_token` below embeds both.
The fields `client_id`, `client_secret`, `access_token`, `token_expires_at`
mirror the instance attributes set in `__init__` and mutated by the method. -/

/-- Mutable state of one service instance: credentials plus the cached token. -/
structure ServiceState where
  client_id : String
  client_secret : String
  access_token : Option String
  token_expires_at : Int
  deriving DecidableEq

/-- Outcome of the HTTP POST to the auth endpoint: either a response with a
status code and the two body fields read via `result.get(...)` plus the raw
body text, or a raised transport/parsing exception. -/
inductive AuthOutcome where
  | resp (status : Nat) (access_token : Option String) (expires_in : Option Int) (body : String)
  | exc (msg : String)
  deriving DecidableEq

/-- The form body sent by the client-credentials exchange (the `data` dict of
the POST in `_ensure_token`). -/
def authRequestData (cid secret : String) : List (String × String) :=
  [("grant_type", "client_credentials"), ("client_id", cid), ("client_secret", secret)]

/-- Result of one `_ensure_token` call: the state after the call, the returned
`Optional[str]`, and the list of client-credentials exchanges performed. -/
structure TokenStep where
  state : ServiceState
  token : Option String
  requests : List (List (String × String))
  deriving DecidableEq

/-- Embedding of `_ensure_token(self)` at time `now = int(time.time())`, with
the auth endpoint's behaviour supplied as `auth`.  Mirrors the branch
`if not self.access_token or current_time >= self.token_expires_at` and the
200 / non-200 / exception arms of the refresh attempt. -/
def ensure_token (st : ServiceState) (now : Int) (auth : AuthOutcome) : TokenStep :=
  if truthyStr st.access_token ∧ now < st.token_expires_at then
    { state := st, token := st.access_token, requests := [] }
  else
    match auth with
    | .resp status tok expiresIn _body =>
        if status = 200 then
          { state := { st with access_token := tok,
                               token_expires_at := now + expiresIn.getD 1800 - 60 },
            token := tok,
            requests := [authRequestData st.client_id st.client_secret] }
        else
          { state := st, token := none,
            requests := [authRequestData st.client_id st.client_secret] }
    | .exc _msg =>
        { state := st, token := none,
          requests := [authRequestData st.client_id st.client_secret] }

/-! ## Provider client search operations

Each operation is a pure function of the token obtained from `ensure_token`
(`Option String`) and of the provider endpoint's behaviour for the single GET
the operation issues.  Successful bodies are read with `result.get(...)`
defaults exactly as in the Python, so each optional body field is an
`Option`.  The record element type is a type parameter, since the claims do
not inspect individual provider records. -/

/-- Fields a search operation may read from a parsed 200 body: `data`,
`dictionaries` (flight search) and `meta` (hotel list), each via `.get` with
a default.  JSON objects whose contents the code never inspects are
represented as string-keyed association lists. -/
structure RespBody (α : Type) where
  data : Option (List α) := none
  dictionaries : Option (List (String × String)) := none
  meta : Option (List (String × String)) := none
  deriving DecidableEq

/-- Outcome of the single HTTP GET a search operation performs: a response
with status, parsed body fields and raw text, or a raised exception. -/
inductive ProviderResponse (α : Type) where
  | resp (status : Nat) (body : RespBody α) (text : String)
  | exc (msg : String)
  deriving DecidableEq

/-- A Python return value of a search operation: either a bare list
(`search_airports`, `get_flight_checkin_links`) or a result dict whose
possible keys are `error`, `data`, `dictionaries` and `meta`. -/
inductive SvcReturn (α : Type) where
  | asList (xs : List α)
  | asObj (error : Option String) (data : List α)
      (dictionaries : Option (List (String × String))) (meta : Option (List (String × String)))
  deriving DecidableEq

/-- The uniform failure shape the spec describes: a result object whose
`error` field is present and non-empty and whose `data` list is empty. -/
def isErrorObject {α : Type} : SvcReturn α → Bool
  | .asObj (some e) [] _ _ => e != ""
  | _ => false

/-- Embedding of `AmadeusService.search_airports` (amadeus_service.py lines
80-119): on token failure, non-200 or exception it returns the bare list
`[]`; on 200 it returns `result.get('data', [])`. -/
def search_airports {α : Type} (token : Option String) (r : ProviderResponse α) : SvcReturn α :=
  if truthyStr token = false then .asList []
  else
    match r with
    | .resp status body _text =>
        if status = 200 then .asList (body.data.getD []) else .asList []
    | .exc _msg => .asList []

/-- Embedding of `AmadeusService.search_flights` (amadeus_service.py lines
121-172): failure returns the dict with `error` and empty `data`; 200 returns
`data` plus `dictionaries`. -/
def search_flights {α : Type} (token : Option String) (r : ProviderResponse α) : SvcReturn α :=
  if truthyStr token = false then .asObj (some "Unable to get access token") [] none none
  else
    match r with
    | .resp status body text =>
        if status = 200 then .asObj none (body.data.getD []) (some (body.dictionaries.getD [])) none
        else .asObj (some text) [] none none
    | .exc msg => .asObj (some msg) [] none none

/-- Embedding of `AmadeusService.get_flight_checkin_links` (amadeus_service.py
lines 174-209): same bare-list shape as `search_airports`. -/
def get_flight_checkin_links {α : Type} (token : Option String) (r : ProviderResponse α) :
    SvcReturn α :=
  if truthyStr token = false then .asList []
  else
    match r with
    | .resp status body _text =>
        if status = 200 then .asList (body.data.getD []) else .asList []
    | .exc _msg => .asList []

/-- Embedding of the result shape of `HotelService.search_hotels_by_city`
(hotel_service.py lines 78-144): failure returns the `error` dict; 200 returns
`data` plus `meta`. -/
def search_hotels_by_city {α : Type} (token : Option String) (r : ProviderResponse α) :
    SvcReturn α :=
  if truthyStr token = false then .asObj (some "Unable to get access token") [] none none
  else
    match r with
    | .resp status body text =>
        if status = 200 then .asObj none (body.data.getD []) none (some (body.meta.getD []))
        else .asObj (some text) [] none none
    | .exc msg => .asObj (some msg) [] none none

/-- Embedding of the result shape of `HotelService.search_hotel_offers`
(hotel_service.py lines 203-220): failure returns the `error` dict; 200
returns only `data`. -/
def search_hotel_offers_result {α : Type} (token : Option String) (r : ProviderResponse α) :
    SvcReturn α :=
  if truthyStr token = false then .asObj (some "Unable to get access token") [] none none
  else
    match r with
    | .resp status body text =>
        if status = 200 then .asObj none (body.data.getD []) none none
        else .asObj (some text) [] none none
    | .exc msg => .asObj (some msg) [] none none

/-- A value stored in the outgoing query-parameter dict: the Python dict mixes
strings and ints. -/
inductive PVal where
  | s (v : String)
  | i (v : Int)
  deriving DecidableEq

/-- Embedding of the query-parameter construction of
`HotelService.search_hotel_offers` (hotel_service.py lines 183-201), in dict
insertion order.  Optional string arguments guard their entries with Python
truthiness; `priceRange`/`currency` are attached only together; `includeClosed`
is attached only when the flag is true. -/
def searchHotelOffersParams (hotel_ids : List String) (check_in_date : String)
    (check_out_date : Option String) (adults room_quantity : Int)
    (price_range currency board_type : Option String)
    (include_closed best_rate_only : Bool) : List (String × PVal) :=
  [("hotelIds", .s (String.intercalate "," hotel_ids)),
   ("checkInDate", .s check_in_date),
   ("adults", .i adults),
   ("roomQuantity", .i room_quantity),
   ("bestRateOnly", .s (pyBoolStr best_rate_only))]
  ++ (match check_out_date with
      | some co => if co = "" then [] else [("checkOutDate", PVal.s co)]
      | none => [])
  ++ (match price_range, currency with
      | some p, some c => if p = "" ∨ c = "" then [] else
          [("priceRange", PVal.s p), ("currency", PVal.s c)]
      | _, _ => [])
  ++ (match board_type with
      | some b => if b = "" then [] else [("boardType", PVal.s b)]
      | none => [])
  ++ (if include_closed then [("includeClosed", PVal.s (pyBoolStr include_closed))] else [])

/-! ## Dates

`hotel_agent.search_hotels` defaults a missing check-out date with
`datetime.strptime(check_in_date, "%Y-%m-%d") + timedelta(days=1)` and
`strftime("%Y-%m-%d")`.  `parseYmd` embeds the strptime pattern (each numeric
field is 1-4 / 1-2 digits, month and day-of-month range-checked against the
proleptic Gregorian calendar); `nextDay` embeds `timedelta(days=1)`;
`formatYmd` embeds the strftime call for years in 1000-9999, where the zero
padding of `%Y` is unambiguous. -/

/-- A calendar date as held by `datetime`. -/
structure Date where
  year : Nat
  month : Nat
  day : Nat
  deriving DecidableEq

/-- Gregorian leap-year test. -/
def isLeapYear (y : Nat) : Bool :=
  y % 4 = 0 && (y % 100 != 0 || y % 400 = 0)

/-- Number of days in a month of a given year. -/
def daysInMonth (y m : Nat) : Nat :=
  if m = 2 then (if isLeapYear y then 29 else 28)
  else if m = 4 ∨ m = 6 ∨ m = 9 ∨ m = 11 then 30
  else 31

/-- The date one day later (`timedelta(days=1)`). -/
def nextDay (d : Date) : Date :=
  if d.day < daysInMonth d.year d.month then ⟨d.year, d.month, d.day + 1⟩
  else if d.month < 12 then ⟨d.year, d.month + 1, 1⟩
  else ⟨d.year + 1, 1, 1⟩

/-- Split a character list on the dash character, as `str.split("-")` does. -/
def splitDash : List Char → List (List Char)
  | [] => [[]]
  | x :: xs =>
      match splitDash xs with
      | [] => [[]]
      | g :: gs => if x = '-' then [] :: g :: gs else (x :: g) :: gs

/-- Read a non-empty all-digit character group of length at most `k` as a
number, the way one `%Y`/`%m`/`%d` field of `strptime` consumes digits. -/
def digitGroup (k : Nat) (l : List Char) : Option Nat :=
  if l ≠ [] ∧ l.length ≤ k ∧ l.all (fun c => c.isDigit) then
    some (l.foldl (fun acc c => acc * 10 + (c.toNat - 48)) 0)
  else none

/-- Embedding of `datetime.strptime(s, "%Y-%m-%d")`: three dash-separated
digit groups with the month in 1-12, the day in range for the month, and the
year in `datetime`'s supported range 1-9999. -/
def parseYmd (s : String) : Option Date :=
  match splitDash s.data with
  | [ys, ms, ds] =>
      match digitGroup 4 ys, digitGroup 2 ms, digitGroup 2 ds with
      | some y, some m, some d =>
          if 1 ≤ y ∧ y ≤ 9999 ∧ 1 ≤ m ∧ m ≤ 12 ∧ 1 ≤ d ∧ d ≤ daysInMonth y m then
            some ⟨y, m, d⟩
          else none
      | _, _, _ => none
  | _ => none

/-- Zero-pad the decimal form of a number on the left to width `k`. -/
def padNum (k n : Nat) : String :=
  String.mk (List.replicate (k - (toString n).length) '0') ++ toString n

/-- Embedding of `strftime("%Y-%m-%d")` for four-digit years. -/
def formatYmd (d : Date) : String :=
  padNum 4 d.year ++ ("-" ++ (padNum 2 d.month ++ ("-" ++ padNum 2 d.day)))

/-! ## Hotel agent (`src/agents/hotel_agent.py`)

Static tables, city-name resolution and the `search_hotels` tool up to the
parameters of the service call it issues. -/

/-- The `HOTEL_ID_MAPPING` table (hotel_agent.py lines 51-95), in source
order. -/
def hotelIdMapping : List (String × List String) :=
  [("london", ["MCLONGHM", "HSLONROT"]),
   ("lon", ["MCLONGHM", "HSLONROT"]),
   ("newyork", ["NYNYCTSC", "NYCNYCHM"]),
   ("nyc", ["NYNYCTSC", "NYCNYCHM"]),
   ("new york", ["NYNYCTSC", "NYCNYCHM"]),
   ("paris", ["PARPARHT", "HSPARPDG"]),
   ("par", ["PARPARHT", "HSPARPDG"]),
   ("tokyo", ["TYOPACTH", "TYOTYOKH"]),
   ("tyo", ["TYOPACTH", "TYOTYOKH"]),
   ("beijing", ["PEKPEKFS", "PEKBEKRG"]),
   ("pek", ["PEKPEKFS", "PEKBEKRG"]),
   ("shanghai", ["SHAPUDHD", "SHAPEKRG"]),
   ("sha", ["SHAPUDHD", "SHAPEKRG"]),
   ("hongkong", ["HKGHKGSH", "HKGHKGHR"]),
   ("hkg", ["HKGHKGSH", "HKGHKGHR"]),
   ("hong kong", ["HKGHKGSH", "HKGHKGHR"]),
   ("singapore", ["SINSINRH", "SINSINFS"]),
   ("sin", ["SINSINRH", "SINSINFS"]),
   ("bangkok", ["BKKBKKHB", "BKKBKKSH"]),
   ("bkk", ["BKKBKKHB", "BKKBKKSH"]),
   ("sydney", ["SYDSYDHP", "SYDSYDFS"]),
   ("syd", ["SYDSYDHP", "SYDSYDFS"]),
   ("dubai", ["DXBDUBCC", "DXBDUBIC"]),
   ("dxb", ["DXBDUBCC", "DXBDUBIC"]),
   ("losangeles", ["LAXLAXTL", "LAXBVRMC"]),
   ("lax", ["LAXLAXTL", "LAXBVRMC"]),
   ("los angeles", ["LAXLAXTL", "LAXBVRMC"]),
   ("sanfrancisco", ["SFOSFOLW", "SFOSFOSC"]),
   ("sfo", ["SFOSFOLW", "SFOSFOSC"]),
   ("san francisco", ["SFOSFOLW", "SFOSFOSC"])]

/-- The `CITY_CODE_MAPPING` table (hotel_agent.py lines 99-132), in source
order. -/
def cityCodeMapping : List (String × String) :=
  [("london", "LON"), ("paris", "PAR"), ("newyork", "NYC"), ("new york", "NYC"),
   ("tokyo", "TYO"), ("beijing", "PEK"), ("shanghai", "SHA"), ("hongkong", "HKG"),
   ("hong kong", "HKG"), ("singapore", "SIN"), ("bangkok", "BKK"), ("sydney", "SYD"),
   ("dubai", "DXB"), ("losangeles", "LAX"), ("los angeles", "LAX"),
   ("sanfrancisco", "SFO"), ("san francisco", "SFO"), ("berlin", "BER"),
   ("frankfurt", "FRA"), ("amsterdam", "AMS"), ("rome", "ROM"), ("madrid", "MAD"),
   ("barcelona", "BCN"), ("moscow", "MOW"), ("chicago", "CHI"), ("washington", "WAS"),
   ("boston", "BOS"), ("toronto", "YTO"), ("vancouver", "YVR"), ("montreal", "YMQ"),
   ("milan", "MIL"), ("vienna", "VIE")]

/-- The `BOARD_TYPE_MAPPING` table (hotel_agent.py lines 135-141). -/
def boardTypeMapping : List (String × String) :=
  [("room only", "ROOM_ONLY"), ("breakfast", "BREAKFAST"), ("half board", "HALF_BOARD"),
   ("full board", "FULL_BOARD"), ("all inclusive", "ALL_INCLUSIVE")]

/-- The normalization both tools apply before table lookup:
`city.lower().replace(" ", "")`. -/
def normalizeCity (city : String) : String := removeSpaces (pyLower city)

/-- Hotel-ID resolution of `search_hotels` (hotel_agent.py lines 268-269):
`HOTEL_ID_MAPPING.get(city_key, [])`. -/
def hotelIdsForCity (city : String) : List String :=
  (hotelIdMapping.lookup (normalizeCity city)).getD []

/-- City-code resolution of `search_hotels_by_city` (hotel_agent.py lines
172-173): `CITY_CODE_MAPPING.get(city_key, city.upper())`. -/
def cityCodeForCity (city : String) : String :=
  (cityCodeMapping.lookup (normalizeCity city)).getD (pyUpper city)

/-- Board-type processing of `search_hotels` (hotel_agent.py lines 275-277):
`BOARD_TYPE_MAPPING.get(board_type.lower(), board_type)` when the argument is
truthy, else `None`. -/
def processBoardType (board_type : Option String) : Option String :=
  match board_type with
  | some b => if b = "" then none else some ((boardTypeMapping.lookup (pyLower b)).getD b)
  | none => none

/-- Check-out defaulting of `search_hotels` (hotel_agent.py lines 280-284): a
truthy supplied value is kept; otherwise the check-in date is parsed, advanced
one day, and re-formatted.  `none` means the parse raised (so the tool returns
an error string without calling the service). -/
def agentCheckOutDate (check_in_date : String) (check_out_date : Option String) : Option String :=
  if truthyStr check_out_date then check_out_date
  else (parseYmd check_in_date).map (fun d => formatYmd (nextDay d))

/-- The query parameters of the `search_hotel_offers` call issued by the
agent tool `search_hotels` (hotel_agent.py lines 267-296): `none` when the
tool short-circuits (unknown city) or the date parse raises; the service is
called with defaults `include_closed = False`, `best_rate_only = True`. -/
def agentHotelOffersCall (city check_in_date : String) (check_out_date : Option String)
    (adults room_quantity : Int) (price_range currency board_type : Option String) :
    Option (List (String × PVal)) :=
  if hotelIdsForCity city = [] then none
  else
    match agentCheckOutDate check_in_date check_out_date with
    | none => none
    | some co =>
        some (searchHotelOffersParams (hotelIdsForCity city) check_in_date (some co)
          adults room_quantity price_range currency (processBoardType board_type) false true)

/-! ## Response formatting of the agent tool `search_hotels`

Embedding of the response-building loop of hotel_agent.py lines 307-356.
One hotel-offer record of the provider JSON is a `HotelJson`; the `.get`
defaults of the Python are the `Option.getD` defaults below.  Python string
slicing `room_desc[:100]` is `pyTake100`. -/

/-- The fields of one offer object the formatter reads, each optional as in
the JSON.  `roomDescText` stands for `room.description.text` and
`cancellationText` for `policies.cancellation.description.text`. -/
structure OfferJson where
  id : Option String := none
  roomType : Option String := none
  roomDescText : Option String := none
  priceCurrency : Option String := none
  priceTotal : Option String := none
  paymentType : Option String := none
  cancellationText : Option String := none
  deriving DecidableEq

/-- The fields of one hotel-offer record the formatter reads:
`hotel.name`, `hotel.hotelId`, `hotel.cityCode`, `available` (default
`False`) and the offer list (default `[]`). -/
structure HotelJson where
  hotelName : Option String := none
  hotelId : Option String := none
  cityCode : Option String := none
  available : Bool := false
  offers : List OfferJson := []
  deriving DecidableEq

/-- Python `s[:100]`: the first 100 characters. -/
def pyTake100 (s : String) : String := String.mk (s.data.take 100)

/-- The line `  Offer {j+1}:` for the 0-based offer index `j`. -/
def offerLabel (j : Nat) : String := "  Offer " ++ toString (j + 1) ++ ":\n"

/-- The line `  - Room Type: ...`. -/
def roomTypeLine (o : OfferJson) : String :=
  "  - Room Type: " ++ o.roomType.getD "Unknown" ++ "\n"

/-- The line `  - Description: {room_desc[:100]}{'...' if len(room_desc) > 100 else ''}`. -/
def descriptionLine (o : OfferJson) : String :=
  "  - Description: " ++
    (pyTake100 (o.roomDescText.getD "No description") ++
      (if (o.roomDescText.getD "No description").length > 100 then "..." else "")) ++ "\n"

/-- The line `  - Price: {total_price} {currency_code}`. -/
def priceLine (o : OfferJson) : String :=
  "  - Price: " ++ (o.priceTotal.getD "Unknown" ++ (" " ++ o.priceCurrency.getD "EUR")) ++ "\n"

/-- The line `  - Payment Type: ...`. -/
def paymentLine (o : OfferJson) : String :=
  "  - Payment Type: " ++ o.paymentType.getD "Unknown" ++ "\n"

/-- The line `  - Cancellation Policy: ...` with its trailing blank line. -/
def cancellationLine (o : OfferJson) : String :=
  "  - Cancellation Policy: " ++
    o.cancellationText.getD "No cancellation policy information" ++ "\n\n"

/-- The text appended for the offer at 0-based index `j` (hotel_agent.py
lines 330-351; the fetched `offer.id` is never printed). -/
def formatOffer (j : Nat) (o : OfferJson) : String :=
  offerLabel j ++ roomTypeLine o ++ descriptionLine o ++ priceLine o ++
    paymentLine o ++ cancellationLine o

/-- The inner `for j, offer in enumerate(offers)` loop. -/
def offersBlock : Nat → List OfferJson → String
  | _, [] => ""
  | j, o :: rest => formatOffer j o ++ offersBlock (j + 1) rest

/-- The fragment `Hotel {i+1}: {hotel_name}` for the 0-based hotel index. -/
def hotelLabelName (i : Nat) (h : HotelJson) : String :=
  "Hotel " ++ toString (i + 1) ++ ": " ++ h.hotelName.getD "Unknown Hotel"

/-- The two header lines appended for every hotel record. -/
def hotelHeader (i : Nat) (h : HotelJson) : String :=
  hotelLabelName i h ++ (" (" ++ h.hotelId.getD "Unknown ID" ++ ")\n") ++
    ("City Code: " ++ h.cityCode.getD "" ++ "\n")

/-- The line `Found {len(offers)} offers:`. -/
def offersCountLine (h : HotelJson) : String :=
  "Found " ++ toString h.offers.length ++ " offers:\n"

/-- The text appended for the hotel at 0-based index `i` of `n` hotels:
sold-out hotels get the status line and `continue` (skipping the separator);
available ones get the offers block and, when not last, the `---`
separator. -/
def hotelEntry (i n : Nat) (h : HotelJson) : String :=
  if h.available then
    hotelHeader i h ++ offersCountLine h ++ offersBlock 0 h.offers ++
      (if i < n - 1 then "---\n\n" else "")
  else
    hotelHeader i h ++ "Status: Sold out\n\n"

/-- The outer `for i, hotel_data in enumerate(hotels)` loop (`n` is the total
hotel count used by the separator test). -/
def hotelsBlock : Nat → Nat → List HotelJson → String
  | _, _, [] => ""
  | i, n, h :: rest => hotelEntry i n h ++ hotelsBlock (i + 1) n rest

/-- The response header `Found {n} hotels in {city} from {a} to {b}:`. -/
def searchHotelsHeader (city check_in check_out : String) (n : Nat) : String :=
  "Found " ++ toString n ++ " hotels in " ++ city ++ " from " ++ check_in ++
    " to " ++ check_out ++ ":\n\n"

/-- The text `search_hotels` builds from a successful service result
(hotel_agent.py lines 303-356): the no-offers message for an empty data
list, otherwise the header plus the per-hotel blocks. -/
def searchHotelsOutput (city check_in check_out : String) (hotels : List HotelJson) : String :=
  if hotels.isEmpty then
    "No hotel offers found matching your criteria. Please try different dates or cities."
  else
    searchHotelsHeader city check_in check_out hotels.length ++
      hotelsBlock 0 hotels.length hotels

/-- Occurrence of a list of fragments inside a string, in order and without
overlap. -/
def containsInOrder : List String → String → Prop
  | [], _ => True
  | x :: xs, s => ∃ a b, s = a ++ (x ++ b) ∧ containsInOrder xs b

/-- A concrete offer fixture with a 150-character room description. -/
def fixtureOffer : OfferJson :=
  { id := some "OFF1", roomType := some "DELUXE",
    roomDescText := some (String.mk (List.replicate 150 'x')),
    priceCurrency := some "USD", priceTotal := some "250.00",
    paymentType := some "GUARANTEE", cancellationText := some "Free until 18:00" }

/-- A concrete hotel fixture carrying `fixtureOffer`. -/
def fixtureHotel : HotelJson :=
  { hotelName := some "Grand Hotel", hotelId := some "MCLONGHM",
    cityCode := some "LON", available := true, offers := [fixtureOffer] }

/-- C3: on every `_ensure_token` call, a truthy cached token with `now`
strictly before `token_expires_at` is returned unchanged with no
client-credentials exchange; otherwise exactly one exchange is attempted,
sending `grant_type=client_credentials` with the stored client id and
secret. -/
theorem c3_ensure_token_refresh_policy (st : ServiceState) (now : Int) (auth : AuthOutcome) :
    (truthyStr st.access_token = true → now < st.token_expires_at →
      ensure_token st now auth = { state := st, token := st.access_token, requests := [] }) ∧
    ((truthyStr st.access_token = false ∨ st.token_expires_at ≤ now) →
      (ensure_token st now auth).requests = [authRequestData st.client_id st.client_secret]) := by
  constructor
  · intro h1 h2
    simp [ensure_token, h1, h2]
  · intro h
    have hcond : ¬ (truthyStr st.access_token ∧ now < st.token_expires_at) := by
      rcases h with h | h
      · simp [h]
      · intro hc
        exact absurd hc.2 (not_lt.mpr h)
    cases auth with
    | resp status tok expiresIn body =>
        by_cases hs : status = 200 <;> simp [ensure_token, hcond, hs]
    | exc msg => simp [ensure_token, hcond]

/-- Witness for C3 at concrete inputs: a fresh token is returned without an
exchange, and an expired state triggers exactly one exchange carrying the
stored credentials. -/
theorem c3_ensure_token_refresh_policy_witness :
    (ensure_token ⟨"id1", "sec1", some "tok", 100⟩ 50 (.exc "boom") =
      { state := ⟨"id1", "sec1", some "tok", 100⟩, token := some "tok", requests := [] }) ∧
    ((ensure_token ⟨"id1", "sec1", none, 0⟩ 50 (.exc "boom")).requests =
      [authRequestData "id1" "sec1"]) :=
  ⟨(c3_ensure_token_refresh_policy ⟨"id1", "sec1", some "tok", 100⟩ 50 (.exc "boom")).1
      (by decide) (by decide),
   (c3_ensure_token_refresh_policy ⟨"id1", "sec1", none, 0⟩ 50 (.exc "boom")).2
      (Or.inr (by decide))⟩

/-- C5: whenever the refresh branch is taken and the exchange returns HTTP 200
with both `access_token` and `expires_in` in the body, `_ensure_token` caches
the response token, sets `token_expires_at = now + expires_in - 60`, and
returns that token. -/
theorem c5_ensure_token_success (st : ServiceState) (now expiresIn : Int) (tok body : String)
    (hrefresh : truthyStr st.access_token = false ∨ st.token_expires_at ≤ now) :
    ensure_token st now (.resp 200 (some tok) (some expiresIn) body) =
      { state := { st with access_token := some tok,
                           token_expires_at := now + expiresIn - 60 },
        token := some tok,
        requests := [authRequestData st.client_id st.client_secret] } := by
  have hcond : ¬ (truthyStr st.access_token ∧ now < st.token_expires_at) := by
    rcases hrefresh with h | h
    · simp [h]
    · intro hc
      exact absurd hc.2 (not_lt.mpr h)
  simp [ensure_token, hcond]

/-- Witness for C5 at a concrete expired state and concrete 200 response. -/
theorem c5_ensure_token_success_witness :
    ensure_token ⟨"id1", "sec1", none, 0⟩ 1000 (.resp 200 (some "newtok") (some 1799) "b") =
      { state := ⟨"id1", "sec1", some "newtok", 1000 + 1799 - 60⟩,
        token := some "newtok",
        requests := [authRequestData "id1" "sec1"] } :=
  c5_ensure_token_success ⟨"id1", "sec1", none, 0⟩ 1000 1799 "newtok" "b" (Or.inl (by decide))

/-- C6: whenever the refresh branch is taken and the exchange fails (non-200
status or a raised exception), `_ensure_token` returns `None` and leaves the
cached `access_token` and `token_expires_at` exactly as before. -/
theorem c6_ensure_token_failure (st : ServiceState) (now : Int) (auth : AuthOutcome)
    (hrefresh : truthyStr st.access_token = false ∨ st.token_expires_at ≤ now)
    (hfail : (∃ status tok expiresIn body, auth = .resp status tok expiresIn body ∧ status ≠ 200) ∨
             (∃ msg, auth = .exc msg)) :
    (ensure_token st now auth).token = none ∧ (ensure_token st now auth).state = st := by
  have hcond : ¬ (truthyStr st.access_token ∧ now < st.token_expires_at) := by
    rcases hrefresh with h | h
    · simp [h]
    · intro hc
      exact absurd hc.2 (not_lt.mpr h)
  rcases hfail with ⟨status, tok, expiresIn, body, rfl, hs⟩ | ⟨msg, rfl⟩
  · simp [ensure_token, hcond, hs]
  · simp [ensure_token, hcond]

/-- Witness for C6 at a concrete expired state and a concrete 401 response. -/
theorem c6_ensure_token_failure_witness :
    (ensure_token ⟨"id1", "sec1", some "old", 10⟩ 99 (.resp 401 none none "denied")).token = none ∧
    (ensure_token ⟨"id1", "sec1", some "old", 10⟩ 99 (.resp 401 none none "denied")).state =
      ⟨"id1", "sec1", some "old", 10⟩ :=
  c6_ensure_token_failure ⟨"id1", "sec1", some "old", 10⟩ 99 (.resp 401 none none "denied")
    (Or.inr (by decide)) (Or.inl ⟨401, none, none, "denied", rfl, by decide⟩)

/-- C10: a 200 auth response whose body lacks `expires_in` is given the
default lifetime 1800, so the cached expiry becomes `now + 1740`. -/
theorem c10_ensure_token_default_lifetime (st : ServiceState) (now : Int)
    (tok : Option String) (body : String)
    (hrefresh : truthyStr st.access_token = false ∨ st.token_expires_at ≤ now) :
    (ensure_token st now (.resp 200 tok none body)).state.token_expires_at = now + 1740 := by
  have hcond : ¬ (truthyStr st.access_token ∧ now < st.token_expires_at) := by
    rcases hrefresh with h | h
    · simp [h]
    · intro hc
      exact absurd hc.2 (not_lt.mpr h)
  simp [ensure_token, hcond]
  omega

/-- Witness for C10 at a concrete expired state. -/
theorem c10_ensure_token_default_lifetime_witness :
    (ensure_token ⟨"id1", "sec1", none, 0⟩ 500 (.resp 200 (some "t") none "b")).state.token_expires_at =
      500 + 1740 :=
  c10_ensure_token_default_lifetime ⟨"id1", "sec1", none, 0⟩ 500 (some "t") "b" (Or.inl (by decide))

/-- C1 counterexample: `search_airports` with the token step failed returns
the bare list `[]`, which is not a result object with a non-empty `error`
field and empty `data`; the claimed uniform error shape fails for it. -/
theorem c1_counterexample_airports_bare_list :
    search_airports (α := Unit) none (.exc "boom") = .asList [] ∧
    isErrorObject (search_airports (α := Unit) none (.exc "boom")) = false := by
  constructor <;> rfl

/-- C1 amended: for every failure mode (token unavailable, non-200 response
with non-empty body text, or exception with non-empty message),
`search_flights`, `search_hotels_by_city` and `search_hotel_offers` return a
result object with non-empty `error` and empty `data`, while
`search_airports` and `get_flight_checkin_links` return the bare empty
list with no error field. -/
theorem c1_failure_shapes {α : Type} (token : Option String) (r : ProviderResponse α)
    (hfail : truthyStr token = false ∨
             (∃ status body text, r = .resp status body text ∧ status ≠ 200) ∨
             (∃ msg, r = .exc msg))
    (htext : ∀ status body text, r = .resp status body text → text ≠ "")
    (hmsg : ∀ msg, r = .exc msg → msg ≠ "") :
    isErrorObject (search_flights token r) = true ∧
    isErrorObject (search_hotels_by_city token r) = true ∧
    isErrorObject (search_hotel_offers_result token r) = true ∧
    search_airports token r = .asList [] ∧
    get_flight_checkin_links token r = .asList [] := by
  rcases hfail with htok | ⟨status, body, text, rfl, hs⟩ | ⟨msg, rfl⟩
  · simp [search_flights, search_hotels_by_city, search_hotel_offers_result,
      search_airports, get_flight_checkin_links, htok, isErrorObject]
  · have htext2 : text ≠ "" := htext status body text rfl
    by_cases htok : truthyStr token = false
    · simp [search_flights, search_hotels_by_city, search_hotel_offers_result,
        search_airports, get_flight_checkin_links, htok, isErrorObject]
    · have htok2 : truthyStr token = true := by
        cases h : truthyStr token
        · exact absurd h htok
        · rfl
      simp [search_flights, search_hotels_by_city, search_hotel_offers_result,
        search_airports, get_flight_checkin_links, htok2, hs, isErrorObject, htext2]
  · have hmsg2 : msg ≠ "" := hmsg msg rfl
    by_cases htok : truthyStr token = false
    · simp [search_flights, search_hotels_by_city, search_hotel_offers_result,
        search_airports, get_flight_checkin_links, htok, isErrorObject]
    · have htok2 : truthyStr token = true := by
        cases h : truthyStr token
        · exact absurd h htok
        · rfl
      simp [search_flights, search_hotels_by_city, search_hotel_offers_result,
        search_airports, get_flight_checkin_links, htok2, isErrorObject, hmsg2]

/-- Witness for the amended C1 at a concrete non-200 provider response with a
held token. -/
theorem c1_failure_shapes_witness :
    isErrorObject (search_flights (α := Unit) (some "tok") (.resp 500 {} "server error")) = true ∧
    isErrorObject (search_hotels_by_city (α := Unit) (some "tok") (.resp 500 {} "server error")) = true ∧
    isErrorObject (search_hotel_offers_result (α := Unit) (some "tok") (.resp 500 {} "server error")) = true ∧
    search_airports (α := Unit) (some "tok") (.resp 500 {} "server error") = .asList [] ∧
    get_flight_checkin_links (α := Unit) (some "tok") (.resp 500 {} "server error") = .asList [] :=
  c1_failure_shapes (some "tok") (.resp 500 {} "server error")
    (Or.inr (Or.inl ⟨500, {}, "server error", rfl, by decide⟩))
    (by intro status body text h; cases h; decide)
    (by intro msg h; cases h)

/-- C7: in every `search_hotel_offers` call whose optional string arguments
are either absent or non-empty, the `priceRange` and `currency` query
parameters are attached exactly when both `price_range` and `currency` are
supplied; supplying `price_range` alone omits both. -/
theorem c7_price_range_currency_together (hotel_ids : List String) (check_in_date : String)
    (check_out_date : Option String) (adults room_quantity : Int)
    (price_range currency board_type : Option String) (include_closed best_rate_only : Bool)
    (hpr : price_range ≠ some "") (hcur : currency ≠ some "") :
    (((searchHotelOffersParams hotel_ids check_in_date check_out_date adults room_quantity
        price_range currency board_type include_closed best_rate_only).lookup
        "priceRange").isSome ↔ (price_range.isSome ∧ currency.isSome)) ∧
    (((searchHotelOffersParams hotel_ids check_in_date check_out_date adults room_quantity
        price_range currency board_type include_closed best_rate_only).lookup
        "currency").isSome ↔ (price_range.isSome ∧ currency.isSome)) := by
  have hco : ∀ v : PVal,
      (match check_out_date with
        | some co => if co = "" then ([] : List (String × PVal)) else [("checkOutDate", PVal.s co)]
        | none => []).lookup "priceRange" = none ∧
      (match check_out_date with
        | some co => if co = "" then ([] : List (String × PVal)) else [("checkOutDate", PVal.s co)]
        | none => []).lookup "currency" = none := by
    intro _
    cases check_out_date with
    | none => simp [List.lookup]
    | some co =>
        by_cases h : co = "" <;> simp [List.lookup, h]
  cases price_range with
  | none =>
      cases currency with
      | none =>
          cases check_out_date with
          | none =>
              cases board_type with
              | none => cases include_closed <;> simp [searchHotelOffersParams, List.lookup]
              | some b =>
                  by_cases hb : b = "" <;> cases include_closed <;>
                    simp [searchHotelOffersParams, List.lookup, hb]
          | some co =>
              by_cases hc : co = "" <;>
                cases board_type with
                | none => cases include_closed <;> simp [searchHotelOffersParams, List.lookup, hc]
                | some b =>
                    by_cases hb : b = "" <;> cases include_closed <;>
                      simp [searchHotelOffersParams, List.lookup, hc, hb]
      | some c =>
          have hc : c ≠ "" := fun h => hcur (by rw [h])
          cases check_out_date with
          | none =>
              cases board_type with
              | none => cases include_closed <;> simp [searchHotelOffersParams, List.lookup]
              | some b =>
                  by_cases hb : b = "" <;> cases include_closed <;>
                    simp [searchHotelOffersParams, List.lookup, hb]
          | some co =>
              by_cases hco2 : co = "" <;>
                cases board_type with
                | none => cases include_closed <;> simp [searchHotelOffersParams, List.lookup, hco2]
                | some b =>
                    by_cases hb : b = "" <;> cases include_closed <;>
                      simp [searchHotelOffersParams, List.lookup, hco2, hb]
  | some p =>
      have hp : p ≠ "" := fun h => hpr (by rw [h])
      cases currency with
      | none =>
          cases check_out_date with
          | none =>
              cases board_type with
              | none => cases include_closed <;> simp [searchHotelOffersParams, List.lookup]
              | some b =>
                  by_cases hb : b = "" <;> cases include_closed <;>
                    simp [searchHotelOffersParams, List.lookup, hb]
          | some co =>
              by_cases hco2 : co = "" <;>
                cases board_type with
                | none => cases include_closed <;> simp [searchHotelOffersParams, List.lookup, hco2]
                | some b =>
                    by_cases hb : b = "" <;> cases include_closed <;>
                      simp [searchHotelOffersParams, List.lookup, hco2, hb]
      | some c =>
          have hc : c ≠ "" := fun h => hcur (by rw [h])
          cases check_out_date with
          | none => simp [searchHotelOffersParams, List.lookup, hp, hc]
          | some co =>
              by_cases hco2 : co = "" <;>
                simp [searchHotelOffersParams, List.lookup, hco2, hp, hc]

/-- Witness for C7: supplying only `price_range` at concrete arguments
attaches neither `priceRange` nor `currency`. -/
theorem c7_price_range_currency_together_witness :
    (((searchHotelOffersParams ["MCLONGHM"] "2025-07-01" none 1 1
        (some "100-200") none none false true).lookup "priceRange").isSome ↔
      ((some "100-200" : Option String).isSome ∧ (none : Option String).isSome)) ∧
    (((searchHotelOffersParams ["MCLONGHM"] "2025-07-01" none 1 1
        (some "100-200") none none false true).lookup "currency").isSome ↔
      ((some "100-200" : Option String).isSome ∧ (none : Option String).isSome)) :=
  c7_price_range_currency_together ["MCLONGHM"] "2025-07-01" none 1 1
    (some "100-200") none none false true (by decide) (by decide)

/-- C8 counterexample: with `include_closed = false` (its default), the
outgoing query of `search_hotel_offers` contains no `includeClosed` key at
all, so the flag is not serialized as the string `"false"`. -/
theorem c8_counterexample_include_closed_absent :
    (searchHotelOffersParams ["MCLONGHM"] "2025-07-01" none 1 1
      none none none false true).lookup "includeClosed" = none := by
  rfl

/-- C8 amended: `bestRateOnly` is always serialized as the lowercase literal
`"true"`/`"false"` matching its argument, while `includeClosed` is attached
only when `include_closed` is true (then as `"true"`) and is absent from the
query when it is false. -/
theorem c8_boolean_serialization (hotel_ids : List String) (check_in_date : String)
    (check_out_date : Option String) (adults room_quantity : Int)
    (price_range currency board_type : Option String) (include_closed best_rate_only : Bool) :
    ((searchHotelOffersParams hotel_ids check_in_date check_out_date adults room_quantity
        price_range currency board_type include_closed best_rate_only).lookup "bestRateOnly" =
      some (.s (pyBoolStr best_rate_only))) ∧
    ((searchHotelOffersParams hotel_ids check_in_date check_out_date adults room_quantity
        price_range currency board_type include_closed best_rate_only).lookup "includeClosed" =
      if include_closed then some (.s "true") else none) := by
  constructor
  · rfl
  · cases check_out_date with
    | none =>
        cases price_range with
        | none =>
            cases currency with
            | none =>
                cases board_type with
                | none => cases include_closed <;> rfl
                | some b => by_cases hb : b = "" <;> cases include_closed <;>
                    simp [searchHotelOffersParams, List.lookup, hb, pyBoolStr]
            | some c =>
                cases board_type with
                | none => cases include_closed <;> rfl
                | some b => by_cases hb : b = "" <;> cases include_closed <;>
                    simp [searchHotelOffersParams, List.lookup, hb, pyBoolStr]
        | some p =>
            cases currency with
            | none =>
                cases board_type with
                | none => cases include_closed <;> rfl
                | some b => by_cases hb : b = "" <;> cases include_closed <;>
                    simp [searchHotelOffersParams, List.lookup, hb, pyBoolStr]
            | some c =>
                by_cases hpc : p = "" ∨ c = "" <;>
                  cases board_type with
                  | none => cases include_closed <;>
                      simp [searchHotelOffersParams, List.lookup, hpc, pyBoolStr]
                  | some b => by_cases hb : b = "" <;> cases include_closed <;>
                      simp [searchHotelOffersParams, List.lookup, hpc, hb, pyBoolStr]
    | some co =>
        by_cases hc : co = "" <;>
          cases price_range with
          | none =>
              cases currency with
              | none =>
                  cases board_type with
                  | none => cases include_closed <;>
                      simp [searchHotelOffersParams, List.lookup, hc, pyBoolStr]
                  | some b => by_cases hb : b = "" <;> cases include_closed <;>
                      simp [searchHotelOffersParams, List.lookup, hc, hb, pyBoolStr]
              | some c =>
                  cases board_type with
                  | none => cases include_closed <;>
                      simp [searchHotelOffersParams, List.lookup, hc, pyBoolStr]
                  | some b => by_cases hb : b = "" <;> cases include_closed <;>
                      simp [searchHotelOffersParams, List.lookup, hc, hb, pyBoolStr]
          | some p =>
              cases currency with
              | none =>
                  cases board_type with
                  | none => cases include_closed <;>
                      simp [searchHotelOffersParams, List.lookup, hc, pyBoolStr]
                  | some b => by_cases hb : b = "" <;> cases include_closed <;>
                      simp [searchHotelOffersParams, List.lookup, hc, hb, pyBoolStr]
              | some c =>
                  by_cases hpc : p = "" ∨ c = "" <;>
                    cases board_type with
                    | none => cases include_closed <;>
                        simp [searchHotelOffersParams, List.lookup, hc, hpc, pyBoolStr]
                    | some b => by_cases hb : b = "" <;> cases include_closed <;>
                        simp [searchHotelOffersParams, List.lookup, hc, hpc, hb, pyBoolStr]

/-- A formatted date is never the empty string (its text contains dashes). -/
theorem formatYmd_ne_empty (d : Date) : formatYmd d ≠ "" := by
  intro h
  have hdata : (formatYmd d).data = [] := by rw [h]
  rw [formatYmd] at hdata
  simp only [String.data_append, List.append_eq_nil] at hdata
  have : ("-" : String).data = [] := hdata.2.1
  simp at this

/-- C2 counterexample: calling `search_hotel_offers` itself with
`check_out_date` omitted issues a query with no `checkOutDate` parameter at
all; the provider-client parameter construction applies no one-day default. -/
theorem c2_counterexample_service_omits_checkout :
    (searchHotelOffersParams ["MCLONGHM"] "2025-07-01" none 1 1
      none none none false true).lookup "checkOutDate" = none := by
  rfl

/-- C2 amended: the one-day default lives in the agent tool `search_hotels`:
when `check_out_date` is omitted there and the check-in date parses, the
service call it issues carries `checkOutDate` equal to the check-in date plus
one day (for check-in years in 1000-9998 this matches `datetime` exactly),
while a direct service call with `check_out_date` omitted sends no
`checkOutDate` at all. -/
theorem c2_agent_checkout_default (city check_in_date : String)
    (adults room_quantity : Int) (price_range currency board_type : Option String)
    (d : Date) (hparse : parseYmd check_in_date = some d)
    (_hyear : 1000 ≤ d.year)
    (_hmax : ¬(d.year = 9999 ∧ d.month = 12 ∧ d.day = 31))
    (hcity : hotelIdsForCity city ≠ []) :
    ∃ ps, agentHotelOffersCall city check_in_date none adults room_quantity
            price_range currency board_type = some ps ∧
          ps.lookup "checkOutDate" = some (.s (formatYmd (nextDay d))) := by
  have hco : agentCheckOutDate check_in_date none = some (formatYmd (nextDay d)) := by
    simp [agentCheckOutDate, truthyStr, hparse]
  refine ⟨searchHotelOffersParams (hotelIdsForCity city) check_in_date
      (some (formatYmd (nextDay d))) adults room_quantity price_range currency
      (processBoardType board_type) false true, ?_, ?_⟩
  · simp [agentHotelOffersCall, hcity, hco]
  · have hne : formatYmd (nextDay d) ≠ "" := formatYmd_ne_empty (nextDay d)
    simp [searchHotelOffersParams, List.lookup, hne]

/-- Witness for the amended C2: through the agent with city `london` and
check-in `2025-07-01`, the outgoing query carries
`checkOutDate = 2025-07-02`. -/
theorem c2_agent_checkout_default_witness :
    ∃ ps, agentHotelOffersCall "london" "2025-07-01" none 1 1 none none none = some ps ∧
          ps.lookup "checkOutDate" = some (.s "2025-07-02") := by
  obtain ⟨ps, h1, h2⟩ := c2_agent_checkout_default "london" "2025-07-01" 1 1 none none none
    ⟨2025, 7, 1⟩ (by decide) (by decide) (by decide) (by decide)
  exact ⟨ps, h1, h2.trans (by decide)⟩

/-- C4 counterexample: the alias `berlin` is present in the static city-code
table, yet resolution yields the empty hotel-ID list, because the hotel-ID
table has no `berlin` entry. -/
theorem c4_counterexample_berlin :
    ("berlin", "BER") ∈ cityCodeMapping ∧ hotelIdsForCity "berlin" = [] := by
  exact ⟨by decide, by rfl⟩

/-- C4 amended: every alias in the hotel-ID table resolves to its non-empty
hotel-ID list, every alias in the city-code table resolves to its documented
3-letter code, and a city whose normalization is absent from a table receives
that table's fallback: the empty hotel-ID list, respectively the uppercased
raw input as city code.  Aliases present in only one table (such as `berlin`)
receive the other table's fallback. -/
theorem c4_resolution (city : String) :
    (∀ p ∈ hotelIdMapping, hotelIdsForCity p.1 = p.2 ∧ p.2 ≠ []) ∧
    (∀ p ∈ cityCodeMapping, cityCodeForCity p.1 = p.2 ∧ p.2.length = 3) ∧
    (hotelIdMapping.lookup (normalizeCity city) = none → hotelIdsForCity city = []) ∧
    (cityCodeMapping.lookup (normalizeCity city) = none → cityCodeForCity city = pyUpper city) := by
  refine ⟨by decide, by decide, ?_, ?_⟩
  · intro h
    simp [hotelIdsForCity, h]
  · intro h
    simp [cityCodeForCity, h]

/-- Witness for the amended C4: a known alias from each table resolves as
documented, and the unknown city `atlantis` receives both fallbacks. -/
theorem c4_resolution_witness :
    (hotelIdsForCity "london" = ["MCLONGHM", "HSLONROT"] ∧
      (["MCLONGHM", "HSLONROT"] : List String) ≠ []) ∧
    (cityCodeForCity "new york" = "NYC" ∧ ("NYC" : String).length = 3) ∧
    hotelIdsForCity "atlantis" = [] ∧
    cityCodeForCity "atlantis" = pyUpper "atlantis" :=
  ⟨(c4_resolution "atlantis").1 ("london", ["MCLONGHM", "HSLONROT"]) (by decide),
   (c4_resolution "atlantis").2.1 ("new york", "NYC") (by decide),
   (c4_resolution "atlantis").2.2.1 (by decide),
   (c4_resolution "atlantis").2.2.2 (by decide)⟩

/-- String append is associative. -/
theorem str_append_assoc (a b c : String) : a ++ b ++ c = a ++ (b ++ c) := by
  apply String.ext
  simp [String.data_append, List.append_assoc]

/-- The empty string is a left unit for append. -/
theorem str_empty_append (s : String) : "" ++ s = s := by
  apply String.ext
  rw [String.data_append]
  rfl

/-- The empty string is a right unit for append. -/
theorem str_append_empty (s : String) : s ++ "" = s := by
  apply String.ext
  rw [String.data_append]
  simp

/-- In-order occurrence survives embedding between a prefix and a suffix. -/
theorem containsInOrder_embed (xs : List String) (t a b : String)
    (h : containsInOrder xs t) : containsInOrder xs (a ++ (t ++ b)) := by
  induction xs generalizing t a b with
  | nil => trivial
  | cons x xs ih =>
      obtain ⟨a1, b1, ht, hrest⟩ := h
      refine ⟨a ++ a1, b1 ++ b, ?_, ?_⟩
      · subst ht
        simp [str_append_assoc]
      · have h2 := ih b1 "" b hrest
        rwa [str_empty_append] at h2

/-- In-order occurrence survives prepending a prefix. -/
theorem containsInOrder_prepend (xs : List String) (t a : String)
    (h : containsInOrder xs t) : containsInOrder xs (a ++ t) := by
  have h2 := containsInOrder_embed xs t a "" h
  rwa [str_append_empty] at h2

/-- The text of one offer contains the offer label, the description line and
the price line, in order. -/
theorem formatOffer_contains (j : Nat) (o : OfferJson) :
    containsInOrder [offerLabel j, descriptionLine o, priceLine o] (formatOffer j o) := by
  refine ⟨"",
    roomTypeLine o ++ (descriptionLine o ++ (priceLine o ++ (paymentLine o ++ cancellationLine o))),
    ?_,
    roomTypeLine o, priceLine o ++ (paymentLine o ++ cancellationLine o), rfl,
    "", paymentLine o ++ cancellationLine o, ?_, trivial⟩
  · simp [formatOffer, str_append_assoc, str_empty_append]
  · rw [str_empty_append]

/-- The offers block splits around the offer at any in-range index. -/
theorem offersBlock_extract (offers : List OfferJson) (j j0 : Nat) (o : OfferJson)
    (h : offers[j]? = some o) :
    ∃ a b, offersBlock j0 offers = a ++ (formatOffer (j0 + j) o ++ b) := by
  induction offers generalizing j j0 with
  | nil => simp at h
  | cons ohead rest ih =>
      cases j with
      | zero =>
          simp at h
          subst h
          refine ⟨"", offersBlock (j0 + 1) rest, ?_⟩
          simp [offersBlock, str_empty_append]
      | succ j =>
          obtain ⟨a, b, hab⟩ := ih j (j0 + 1) (by simpa using h)
          refine ⟨formatOffer j0 ohead ++ a, b, ?_⟩
          have hidx : j0 + (j + 1) = j0 + 1 + j := by omega
          rw [hidx]
          simp [offersBlock, hab, str_append_assoc]

/-- The hotels block splits around the hotel entry at any in-range index. -/
theorem hotelsBlock_extract (hotels : List HotelJson) (i i0 n : Nat) (h : HotelJson)
    (hi : hotels[i]? = some h) :
    ∃ a b, hotelsBlock i0 n hotels = a ++ (hotelEntry (i0 + i) n h ++ b) := by
  induction hotels generalizing i i0 with
  | nil => simp at hi
  | cons hh rest ih =>
      cases i with
      | zero =>
          simp at hi
          subst hi
          refine ⟨"", hotelsBlock (i0 + 1) n rest, ?_⟩
          simp [hotelsBlock, str_empty_append]
      | succ i =>
          obtain ⟨a, b, hab⟩ := ih i (i0 + 1) (by simpa using hi)
          refine ⟨hotelEntry i0 n hh ++ a, b, ?_⟩
          have hidx : i0 + (i + 1) = i0 + 1 + i := by omega
          rw [hidx]
          simp [hotelsBlock, hab, str_append_assoc]

/-- An available hotel entry contains the hotel label with its name followed
by any of its offers' label, description line and price line, in order. -/
theorem hotelEntry_contains (i n j : Nat) (h : HotelJson) (o : OfferJson)
    (hav : h.available = true) (hj : h.offers[j]? = some o) :
    containsInOrder [hotelLabelName i h, offerLabel j, descriptionLine o, priceLine o]
      (hotelEntry i n h) := by
  obtain ⟨a2, b2, hab2⟩ := offersBlock_extract h.offers j 0 o hj
  rw [Nat.zero_add] at hab2
  have hob : containsInOrder [offerLabel j, descriptionLine o, priceLine o]
      (offersBlock 0 h.offers) := by
    rw [hab2]
    exact containsInOrder_embed _ _ a2 b2 (formatOffer_contains j o)
  refine ⟨"",
    (" (" ++ h.hotelId.getD "Unknown ID" ++ ")\n") ++
      (("City Code: " ++ h.cityCode.getD "" ++ "\n") ++
        (offersCountLine h ++
          (offersBlock 0 h.offers ++ (if i < n - 1 then "---\n\n" else "")))),
    ?_, ?_⟩
  · simp [hotelEntry, hav, hotelHeader, str_append_assoc, str_empty_append]
  · have heq :
        (" (" ++ h.hotelId.getD "Unknown ID" ++ ")\n") ++
          (("City Code: " ++ h.cityCode.getD "" ++ "\n") ++
            (offersCountLine h ++
              (offersBlock 0 h.offers ++ (if i < n - 1 then "---\n\n" else "")))) =
        ((" (" ++ h.hotelId.getD "Unknown ID" ++ ")\n") ++
            (("City Code: " ++ h.cityCode.getD "" ++ "\n") ++ offersCountLine h)) ++
          (offersBlock 0 h.offers ++ (if i < n - 1 then "---\n\n" else "")) := by
      simp [str_append_assoc]
    rw [heq]
    exact containsInOrder_embed _ _ _ _ hob

/-- A truncated description has at most 100 characters. -/
theorem pyTake100_length_le (s : String) : (pyTake100 s).length ≤ 100 := by
  cases s with
  | mk l => simp [pyTake100, String.length]

/-- Truncation is the identity on descriptions of at most 100 characters. -/
theorem pyTake100_of_le (s : String) (h : s.length ≤ 100) : pyTake100 s = s := by
  cases s with
  | mk l =>
      simp only [pyTake100]
      rw [List.take_of_length_le]
      exact h

/-- C9: the text built for any available hotel record and any of its offers
contains, in order, the 1-based hotel label with the hotel name, the 1-based
offer label, the description line, and the price line carrying the total
price with its currency code; the emitted description is truncated to at
most 100 characters, with the ellipsis marker appended exactly when the
source description exceeds 100 characters. -/
theorem c9_hotel_offer_formatting (city check_in check_out : String)
    (hotels : List HotelJson) (i j : Nat) (h : HotelJson) (o : OfferJson)
    (hi : hotels[i]? = some h) (hav : h.available = true) (hj : h.offers[j]? = some o) :
    containsInOrder [hotelLabelName i h, offerLabel j, descriptionLine o, priceLine o]
      (searchHotelsOutput city check_in check_out hotels) ∧
    (pyTake100 (o.roomDescText.getD "No description")).length ≤ 100 ∧
    ((o.roomDescText.getD "No description").length > 100 →
      descriptionLine o = "  - Description: " ++
        (pyTake100 (o.roomDescText.getD "No description") ++ "...") ++ "\n") ∧
    ((o.roomDescText.getD "No description").length ≤ 100 →
      descriptionLine o = "  - Description: " ++
        (o.roomDescText.getD "No description" ++ "") ++ "\n") := by
  refine ⟨?_, pyTake100_length_le _, ?_, ?_⟩
  · have hnonempty : hotels ≠ [] := by
      intro he
      rw [he] at hi
      simp at hi
    have hout : searchHotelsOutput city check_in check_out hotels =
        searchHotelsHeader city check_in check_out hotels.length ++
          hotelsBlock 0 hotels.length hotels := by
      simp [searchHotelsOutput, hnonempty]
    obtain ⟨A, B, hAB⟩ := hotelsBlock_extract hotels i 0 hotels.length h hi
    rw [Nat.zero_add] at hAB
    rw [hout, hAB]
    exact containsInOrder_prepend _ _ _
      (containsInOrder_embed _ _ A B (hotelEntry_contains i hotels.length j h o hav hj))
  · intro hlen
    simp [descriptionLine, hlen]
  · intro hlen
    have hnot : ¬ (o.roomDescText.getD "No description").length > 100 := by omega
    simp [descriptionLine, hnot, pyTake100_of_le _ hlen, str_append_empty]

/-- Witness for C9 on a concrete fixture whose room description has 150
characters. -/
theorem c9_hotel_offer_formatting_witness :
    containsInOrder
      [hotelLabelName 0 fixtureHotel, offerLabel 0, descriptionLine fixtureOffer,
        priceLine fixtureOffer]
      (searchHotelsOutput "london" "2025-07-01" "2025-07-02" [fixtureHotel]) ∧
    (pyTake100 (fixtureOffer.roomDescText.getD "No description")).length ≤ 100 ∧
    ((fixtureOffer.roomDescText.getD "No description").length > 100 →
      descriptionLine fixtureOffer = "  - Description: " ++
        (pyTake100 (fixtureOffer.roomDescText.getD "No description") ++ "...") ++ "\n") ∧
    ((fixtureOffer.roomDescText.getD "No description").length ≤ 100 →
      descriptionLine fixtureOffer = "  - Description: " ++
        (fixtureOffer.roomDescText.getD "No description" ++ "") ++ "\n") :=
  c9_hotel_offer_formatting "london" "2025-07-01" "2025-07-02" [fixtureHotel] 0 0
    fixtureHotel fixtureOffer (by rfl) (by rfl) (by rfl)
